import Mathlib

/-!
# Verification of the inventory-erp backend against its specification

This file gives a shallow embedding, in Lean 4, of the backend of the
inventory/todo/calendar administration tool (a Next.js + Prisma application)
and proves or refutes the specified properties of its request gate,
authentication helpers, list/pagination endpoints, mutation endpoints and
dashboard aggregation.

Conventions of the embedding:
* Database tables are explicit lists of records; Prisma calls become pure
  list operations (`find?`, `filter`, `map`), and a mutating handler returns
  the response together with the table it leaves behind.
* Timestamps are integers (epoch milliseconds); `new Date()` / Prisma's
  `@updatedAt` become an explicit `now : Int` parameter.
* JavaScript numeric string coercions (`parseInt`, `Number`) are modelled by
  executable parsers below; exotic numeral forms (exponents, hex, fractional
  parts) are outside the inputs exercised here and are noted where relevant.
* Cryptographic primitives (bcrypt compare, JWT sign/verify) are abstracted
  as function parameters, so theorems quantify over their behaviour.
-/

namespace InventoryErp

/-! ## JavaScript string/number helpers

The Lean core string functions (`String.trim`, `String.toLower`, ...) do not
reduce inside the kernel, so the JavaScript string operations used by the
routes are re-implemented here over `List Char` with `Char.toNat`
arithmetic; all of them evaluate by `decide`. -/

/-- ASCII whitespace (the characters JavaScript `trim` strips that occur in
our inputs). -/
def isWsChar (c : Char) : Bool :=
  c.toNat = 32 || c.toNat = 9 || c.toNat = 10 || c.toNat = 13 || c.toNat = 11 || c.toNat = 12

/-- Strip leading and trailing whitespace from a character list. -/
def trimChars (cs : List Char) : List Char :=
  ((cs.dropWhile isWsChar).reverse.dropWhile isWsChar).reverse

/-- JavaScript `s.trim()`. -/
def jsTrim (s : String) : String :=
  String.mk (trimChars s.toList)

/-- Decimal digit test. -/
def isDigitChar (c : Char) : Bool :=
  48 ≤ c.toNat && c.toNat ≤ 57

/-- Numeric value of a list of decimal digit characters. -/
def digitsToNat (ds : List Char) : Nat :=
  ds.foldl (fun acc c => acc * 10 + (c.toNat - 48)) 0

/-- Parse the leading run of decimal digits; `none` when there is none
(JavaScript `NaN`). -/
def parseLeadingDigits (cs : List Char) : Option Nat :=
  let ds := cs.takeWhile isDigitChar
  if ds.isEmpty then none else some (digitsToNat ds)

/-- JavaScript `parseInt(s, 10)`: skip whitespace, optional sign, then the
leading run of digits; `none` models `NaN`. -/
def jsParseInt (s : String) : Option Int :=
  match trimChars s.toList with
  | '-' :: rest => (parseLeadingDigits rest).map (fun n => -(n : Int))
  | '+' :: rest => (parseLeadingDigits rest).map (fun n => (n : Int))
  | cs => (parseLeadingDigits cs).map (fun n => (n : Int))

/-- JavaScript `Number(s)` restricted to integer results, as consumed by
`z.coerce.number().int()`: the empty/whitespace string coerces to `0`, a
string of digits (with optional sign) to its value, anything else to `NaN`
(`none`).  Fractional, exponent and hex numerals are not modelled; they
either fail the `.int()` check or do not occur in the properties proved
here. -/
def jsNumberInt (s : String) : Option Int :=
  match trimChars s.toList with
  | [] => some 0
  | '-' :: rest =>
      if !rest.isEmpty && rest.all isDigitChar then some (-(digitsToNat rest : Int)) else none
  | '+' :: rest =>
      if !rest.isEmpty && rest.all isDigitChar then some ((digitsToNat rest : Int)) else none
  | cs => if cs.all isDigitChar then some ((digitsToNat cs : Int)) else none

/-- Lower-case a single ASCII character. -/
def lowerChar (c : Char) : Char :=
  if 65 ≤ c.toNat && c.toNat ≤ 90 then Char.ofNat (c.toNat + 32) else c

/-- Upper-case a single ASCII character. -/
def upperChar (c : Char) : Char :=
  if 97 ≤ c.toNat && c.toNat ≤ 122 then Char.ofNat (c.toNat - 32) else c

/-- JavaScript `s.toLowerCase()` (ASCII range). -/
def jsToLower (s : String) : String :=
  String.mk (s.toList.map lowerChar)

/-- JavaScript `s.toUpperCase()` (ASCII range). -/
def jsToUpper (s : String) : String :=
  String.mk (s.toList.map upperChar)

/-- Does `hay` start with `needle` (character lists)? -/
def startsWithChars : List Char → List Char → Bool
  | _, [] => true
  | [], _ :: _ => false
  | c :: cs, d :: ds => decide (c = d) && startsWithChars cs ds

/-- JavaScript `s.startsWith(p)`. -/
def jsStartsWith (s p : String) : Bool :=
  startsWithChars s.toList p.toList

/-- Does `hay` contain `needle` as a contiguous substring (character lists)? -/
def hasSubstrChars (needle : List Char) : List Char → Bool
  | [] => needle.isEmpty
  | c :: cs => startsWithChars (c :: cs) needle || hasSubstrChars needle cs

/-- Prisma `contains` with `mode: 'insensitive'`: case-insensitive substring
test. -/
def insensContains (hay sub : String) : Bool :=
  hasSubstrChars (jsToLower sub).toList (jsToLower hay).toList

/-! ## Data model (prisma/schema.prisma) -/

/-- Embedding of `enum Role` of the Prisma schema. -/
inductive Role where
  | ADMIN
  | USER
deriving DecidableEq, Repr

/-- Embedding of `enum DeliveryMethod` of the Prisma schema. -/
inductive DeliveryMethod where
  | DIRECT
  | COURIER
deriving DecidableEq, Repr

/-- Embedding of `enum ProgressStatus` of the Prisma schema (declaration order matters for
Prisma's enum ordering). -/
inductive ProgressStatus where
  | IN_PROGRESS
  | COMPLETED
  | UNCONFIRMED
deriving DecidableEq, Repr

/-- Embedding of `enum TodoPriority` of the Prisma schema. -/
inductive TodoPriority where
  | HIGH
  | MEDIUM
  | LOW
deriving DecidableEq, Repr

/-- Embedding of `model User`. -/
structure User where
  id : Int
  username : String
  password : String
  role : Role
  createdAt : Int
  updatedAt : Int
deriving DecidableEq, Repr

/-- Embedding of `model Item`. -/
structure Item where
  id : Int
  storeName : String
  itemName : String
  quantity : Int
  specification : String
  deliveryMethod : DeliveryMethod
  notes : Option String
  createdAt : Int
  updatedAt : Int
  progressStatus : ProgressStatus
deriving DecidableEq, Repr

/-- Embedding of `model Todo`. -/
structure Todo where
  id : String
  text : String
  completed : Bool
  priority : TodoPriority
  createdAt : Int
  updatedAt : Int
  userId : Option Int
  deadline : Option Int
deriving DecidableEq, Repr

/-- Embedding of `model CalendarEvent`.  The schema field `end` is a Lean keyword and is
embedded as `endTime`. -/
structure CalendarEvent where
  id : String
  title : String
  description : Option String
  start : Int
  endTime : Option Int
  allDay : Bool
  color : Option String
  userId : Int
  createdAt : Int
  updatedAt : Int
deriving DecidableEq, Repr

/-! ## Request gate (src/middleware.ts) -/

/-- The public allowlist of `middleware`. -/
def publicPaths : List String :=
  ["/api/auth/login", "/api/auth/logout", "/api/auth/me", "/api/internal/user-data"]

/-- Embedding of `PROTECTED_METHODS` of `middleware.ts`. -/
def protectedMethods : List String := ["POST", "PUT", "PATCH", "DELETE"]

/-- Outcome of the middleware's internal `fetch` of
`/api/internal/user-data?userId=...`: a thrown network error, a non-ok HTTP
status, or an ok JSON body whose `role` field may be missing (`none`). -/
inductive RoleFetch where
  | fetchFail
  | badStatus
  | ok (role : Option String)
deriving DecidableEq, Repr

/-- Result of the middleware: a terminal JSON response (possibly clearing the
`token` cookie), a plain pass-through, or a pass-through that attaches the
`x-user-id` / `x-user-role` request headers. -/
inductive MwDecision where
  | respond (status : Nat) (clearCookie : Bool)
  | next
  | nextWith (userId role : String)
deriving DecidableEq, Repr

/-- Embedding of `middleware` of `src/middleware.ts`.  `verify` abstracts the async
`verifyToken` (returning the token's `userId` claim), `fetchRole` the
internal role lookup.  Empty strings are JavaScript-falsy, hence the
explicit `= ""` tests mirroring `!tokenCookie?.value`, `!decodedToken?.userId`
and `!userRole`. -/
def middleware (verify : String → Option String) (fetchRole : String → RoleFetch)
    (pathname method : String) (tokenCookie : Option String) : MwDecision :=
  if publicPaths.any (fun p => jsStartsWith pathname p) then .next
  else if jsStartsWith pathname "/api/" then
    match tokenCookie with
    | none => .respond 401 false
    | some tok =>
      if tok = "" then .respond 401 false
      else
        match verify tok with
        | none => .respond 401 true
        | some uid =>
          if uid = "" then .respond 401 true
          else
            match fetchRole uid with
            | .fetchFail => .respond 500 false
            | .badStatus => .respond 500 false
            | .ok none => .respond 403 false
            | .ok (some role) =>
              if role = "" then .respond 403 false
              else if protectedMethods.any (fun m => decide (m = jsToUpper method)) && decide (role = "USER") then
                .respond 403 false
              else .nextWith uid role
  else .next

/-! ## Token and password helpers (src/lib/auth.ts; jsonwebtoken variant in
middleware.ts) -/

/-- Failure modes of the underlying JWT library's verify call (jose error
codes / jsonwebtoken exceptions). -/
inductive JoseError where
  | expired
  | badSignature
  | other
deriving DecidableEq, Repr

/-- The identity payload embedded in a jose token (`userId` serialized as a
string). -/
structure AuthTokenPayload where
  userId : String
deriving DecidableEq, Repr

/-- Embedding of `verifyToken` of `src/lib/auth.ts`: the `jose.jwtVerify` call is
abstracted as `jwtVerify`, which either yields the embedded payload or
throws (`Except.error`); the `try/catch` maps every thrown error to `null`,
and the empty token short-circuits to `null` (`if (!token) return null`). -/
def verifyTokenJose (jwtVerify : String → Except JoseError AuthTokenPayload)
    (token : String) : Option AuthTokenPayload :=
  if token = "" then none
  else
    match jwtVerify token with
    | .ok payload => some payload
    | .error _ => none

/-- Payload of the jsonwebtoken variant (`userId` as a number). -/
structure JwtPayload where
  userId : Int
deriving DecidableEq, Repr

/-- The jsonwebtoken `verifyToken` variant appended to `middleware.ts`:
`jwt.verify` in a `try/catch`, any exception mapped to `null`. -/
def verifyTokenJwt (jwtVerify : String → Except JoseError JwtPayload)
    (token : String) : Option JwtPayload :=
  match jwtVerify token with
  | .ok p => some p
  | .error _ => none

/-- Embedding of `verifyPassword` of `src/lib/auth.ts`: a missing/empty stored hash is
rejected outright (`if (!hashedPassword) return false`), otherwise the
result of `bcrypt.compare` (abstracted as `bcryptCompare`) is returned. -/
def verifyPassword (bcryptCompare : String → String → Bool)
    (password : String) (hashed : Option String) : Bool :=
  match hashed with
  | none => false
  | some h => if h = "" then false else bcryptCompare password h

/-! ## POST /api/auth/login (src/app/api/auth/login/route.ts) -/

/-- A `Set-Cookie` issued through `response.cookies.set`. -/
structure SetCookie where
  name : String
  value : String
  httpOnly : Bool
  secure : Bool
  sameSiteStrict : Bool
  maxAge : Nat
deriving DecidableEq, Repr

/-- Login response: status, the public user body `{id, username, role}` when
present, and the cookie set on the response. -/
structure LoginResponse where
  status : Nat
  user : Option (Int × String × Role)
  cookie : Option SetCookie
deriving DecidableEq, Repr

/-- Embedding of `POST` of `src/app/api/auth/login/route.ts`.  `bcryptCompare` abstracts
`bcrypt.compare`, `sign` abstracts `generateToken` (a signed token for a
user id), `isProd` is `NODE_ENV === 'production'` (the cookie's `secure`
flag). -/
def loginPOST (bcryptCompare : String → String → Bool) (sign : Int → String)
    (isProd : Bool) (db : List User) (username password : String) : LoginResponse :=
  match db.find? (fun u => decide (u.username = username)) with
  | none => ⟨401, none, none⟩
  | some u =>
    if verifyPassword bcryptCompare password (some u.password) then
      ⟨200, some (u.id, u.username, u.role),
        some ⟨"token", sign u.id, true, isProd, true, 60 * 60 * 24 * 7⟩⟩
    else ⟨401, none, none⟩

/-! ## GET /api/todos (src/app/api/todos/route.ts) -/

/-- The raw query-string parameters of `GET /api/todos` (each key present or
absent; values are strings). -/
structure TodoListParams where
  page : Option String
  limit : Option String
  userId : Option String
  completed : Option String
  priority : Option String
  search : Option String
deriving DecidableEq, Repr

/-- The validated output of `paginationSchema`. -/
structure TodoListQuery where
  page : Nat
  limit : Nat
  userId : Option Int
  completed : Option Bool
  priority : Option TodoPriority
  search : Option String
deriving DecidableEq, Repr

/-- Embedding of `z.nativeEnum(TodoPriority)`. -/
def parsePriority (s : String) : Option TodoPriority :=
  if s = "HIGH" then some .HIGH
  else if s = "MEDIUM" then some .MEDIUM
  else if s = "LOW" then some .LOW
  else none

/-- Embedding of `page: z.coerce.number().int().min(1).default(1)`. -/
def parsePageParam : Option String → Option Nat
  | none => some 1
  | some s =>
      match jsNumberInt s with
      | none => none
      | some n => if 1 ≤ n then some n.toNat else none

/-- Embedding of `limit: z.coerce.number().int().min(1).max(100).default(10)`. -/
def parseLimitParam : Option String → Option Nat
  | none => some 10
  | some s =>
      match jsNumberInt s with
      | none => none
      | some n => if 1 ≤ n ∧ n ≤ 100 then some n.toNat else none

/-- Embedding of `userId: z.coerce.number().int().optional()`. -/
def parseUserIdParam : Option String → Option (Option Int)
  | none => some none
  | some s => (jsNumberInt s).map some

/-- Embedding of `completed: z.enum(['true','false']).optional().transform(...)`. -/
def parseCompletedParam : Option String → Option (Option Bool)
  | none => some none
  | some s =>
      if s = "true" then some (some true)
      else if s = "false" then some (some false)
      else none

/-- Embedding of `priority: z.nativeEnum(TodoPriority).optional()`. -/
def parsePriorityParam : Option String → Option (Option TodoPriority)
  | none => some none
  | some s => (parsePriority s).map some

/-- Embedding of `paginationSchema.safeParse` of `src/app/api/todos/route.ts`:
`page` coerced integer `≥ 1` defaulting to `1`; `limit` coerced integer in
`[1, 100]` defaulting to `10`; `userId` an optional coerced integer;
`completed` the enum `'true' | 'false'` transformed to a boolean;
`priority` the `TodoPriority` enum; `search` an optional trimmed string. -/
def parseTodoListParams (p : TodoListParams) : Option TodoListQuery := do
  let page ← parsePageParam p.page
  let limit ← parseLimitParam p.limit
  let userId ← parseUserIdParam p.userId
  let completed ← parseCompletedParam p.completed
  let priority ← parsePriorityParam p.priority
  some ⟨page, limit, userId, completed, priority, p.search.map jsTrim⟩

/-- The Prisma `where` object built by `GET /api/todos` (an empty search
string is falsy and adds no condition). -/
def todoWhere (q : TodoListQuery) (t : Todo) : Bool :=
  (match q.userId with | none => true | some u => decide (t.userId = some u)) &&
  (match q.completed with | none => true | some b => decide (t.completed = b)) &&
  (match q.priority with | none => true | some pr => decide (t.priority = pr)) &&
  (match q.search with
   | none => true
   | some s => if s = "" then true else insensContains t.text s)

/-- Prisma's enum ordering follows declaration order; rank of `TodoPriority`
for `orderBy: { priority: 'asc' }`.  (The schema declares HIGH, MEDIUM,
LOW.) -/
def priorityRank : TodoPriority → Nat
  | .HIGH => 0
  | .MEDIUM => 1
  | .LOW => 2

/-- The `orderBy: [{priority: 'asc'}, {createdAt: 'desc'}]` comparator. -/
def todoLE (a b : Todo) : Bool :=
  decide (priorityRank a.priority < priorityRank b.priority) ||
  (decide (priorityRank a.priority = priorityRank b.priority) && decide (b.createdAt ≤ a.createdAt))

/-- Executable stable sort used to model the database's `ORDER BY` (ties are
left in an unspecified but fixed order, as in the source). -/
def insertSorted (le : α → α → Bool) (x : α) : List α → List α
  | [] => [x]
  | y :: ys => if le x y then x :: y :: ys else y :: insertSorted le x ys

/-- Sort a list with a boolean comparator. -/
def sortByBool (le : α → α → Bool) : List α → List α
  | [] => []
  | x :: xs => insertSorted le x (sortByBool le xs)

/-- Pagination metadata (`meta`) of `GET /api/todos`. -/
structure TodoListMeta where
  currentPage : Nat
  totalPages : Nat
  totalCount : Nat
  limit : Nat
  hasNextPage : Bool
  hasPrevPage : Bool
deriving DecidableEq, Repr

/-- Success body of `GET /api/todos` (the denormalized `user` relation on
each row adds no information to the properties proved here and is
omitted). -/
structure TodoListBody where
  data : List Todo
  meta : TodoListMeta
deriving DecidableEq, Repr

/-- Response of `GET /api/todos`: a 400 on validation failure, otherwise the
page plus metadata. -/
structure TodoListResponse where
  status : Nat
  body : Option TodoListBody
deriving DecidableEq, Repr

/-- Embedding of `GET` of `src/app/api/todos/route.ts`: validate, count matching rows,
compute `totalPages = Math.ceil(totalCount / limit)` and
`skip = (page - 1) * limit`, fetch the sorted window, and return it with the
metadata object. -/
def todosGET (db : List Todo) (p : TodoListParams) : TodoListResponse :=
  match parseTodoListParams p with
  | none => ⟨400, none⟩
  | some q =>
    let matched := db.filter (todoWhere q)
    let totalCount := matched.length
    let totalPages := (totalCount + q.limit - 1) / q.limit
    let skip := (q.page - 1) * q.limit
    let todos := ((sortByBool todoLE matched).drop skip).take q.limit
    ⟨200, some ⟨todos, ⟨q.page, totalPages, totalCount, q.limit,
      decide (q.page < totalPages), decide (1 < q.page)⟩⟩⟩

/-! ## GET /api/items (items list, embedded in src/app/api/items/[id]/route.ts
as the app/api/items/route.ts module) -/

/-- Lexicographic character-list comparison (by code point). -/
def charsLE : List Char → List Char → Bool
  | [], _ => true
  | _ :: _, [] => false
  | c :: cs, d :: ds =>
      decide (c.toNat < d.toNat) || (decide (c = d) && charsLE cs ds)

/-- String comparison used for `ORDER BY` on text columns. -/
def strLE (a b : String) : Bool :=
  charsLE a.toList b.toList

/-- Rank of `DeliveryMethod` in declaration order. -/
def deliveryRank : DeliveryMethod → Nat
  | .DIRECT => 0
  | .COURIER => 1

/-- Rank of `ProgressStatus` in declaration order. -/
def statusRank : ProgressStatus → Nat
  | .IN_PROGRESS => 0
  | .COMPLETED => 1
  | .UNCONFIRMED => 2

/-- Embedding of `ORDER BY` on a nullable text column (`nulls` first). -/
def optStrLE : Option String → Option String → Bool
  | none, _ => true
  | some _, none => false
  | some a, some b => strLE a b

/-- The columns of `items` a caller-supplied `sortBy` may name; anything else
makes Prisma's dynamic `orderBy: { [sortBy]: sortOrder }` throw. -/
def itemSortFields : List String :=
  ["id", "storeName", "itemName", "quantity", "specification",
   "deliveryMethod", "notes", "createdAt", "updatedAt", "progressStatus"]

/-- Ascending comparator for a given `items` column. -/
def itemFieldLE (field : String) (a b : Item) : Bool :=
  if field = "id" then decide (a.id ≤ b.id)
  else if field = "storeName" then strLE a.storeName b.storeName
  else if field = "itemName" then strLE a.itemName b.itemName
  else if field = "quantity" then decide (a.quantity ≤ b.quantity)
  else if field = "specification" then strLE a.specification b.specification
  else if field = "deliveryMethod" then decide (deliveryRank a.deliveryMethod ≤ deliveryRank b.deliveryMethod)
  else if field = "notes" then optStrLE a.notes b.notes
  else if field = "createdAt" then decide (a.createdAt ≤ b.createdAt)
  else if field = "updatedAt" then decide (a.updatedAt ≤ b.updatedAt)
  else decide (statusRank a.progressStatus ≤ statusRank b.progressStatus)

/-- Raw query-string parameters of `GET /api/items`. -/
structure ItemListParams where
  page : Option String
  limit : Option String
  sortBy : Option String
  sortOrder : Option String
  storeName : Option String
  itemName : Option String
deriving DecidableEq, Repr

/-- JavaScript `searchParams.get(k) || d`: a missing key or an empty string
falls back to the default. -/
def orDefault (v : Option String) (d : String) : String :=
  match v with
  | none => d
  | some s => if s = "" then d else s

/-- The `whereClause` of `GET /api/items` (`if (storeName)` /
`if (itemName)` skip falsy values). -/
def itemWhere (p : ItemListParams) (it : Item) : Bool :=
  (match p.storeName with
   | none => true
   | some s => if s = "" then true else decide (it.storeName = s)) &&
  (match p.itemName with
   | none => true
   | some s => if s = "" then true else insensContains it.itemName s)

/-- Success body of `GET /api/items`.  `totalPages` is
`Math.ceil(totalItems / limit)`; when `limit = 0` the JavaScript value is
non-finite (`Infinity`/`NaN`), modelled as `none`. -/
structure ItemListBody where
  items : List Item
  totalItems : Nat
  currentPage : Int
  totalPages : Option Nat
deriving DecidableEq, Repr

/-- Response of `GET /api/items`. -/
structure ItemListResponse where
  status : Nat
  body : Option ItemListBody
deriving DecidableEq, Repr

/-- Embedding of `GET` of the items list module: `page`/`limit` from `parseInt` with
string defaults `'1'`/`'10'`, free-form `sortBy` (default `createdAt`),
`sortOrder` of `'asc'` only when exactly `'asc'`, optional store filter and
case-insensitive item-name search.  There is no schema validation.  A `NaN`
page or limit, an unknown sort column, or a negative skip make the Prisma
call throw and are mapped to 500 by the catch-all; Prisma's take-from-the-end
semantics for a negative `limit` is not modelled (no property here exercises
it). -/
def itemsGET (p : ItemListParams) (db : List Item) : ItemListResponse :=
  let sortBy := orDefault p.sortBy "createdAt"
  let sortOrder : String := if p.sortOrder = some "asc" then "asc" else "desc"
  match jsParseInt (orDefault p.page "1"), jsParseInt (orDefault p.limit "10") with
  | some page, some limit =>
    if itemSortFields.any (fun f => decide (f = sortBy)) then
      if 0 ≤ (page - 1) * limit ∧ 0 ≤ limit then
        let le := itemFieldLE sortBy
        let cmp := if sortOrder = "asc" then le else fun a b => le b a
        let matched := db.filter (itemWhere p)
        let items := ((sortByBool cmp matched).drop ((page - 1) * limit).toNat).take limit.toNat
        let totalItems := matched.length
        ⟨200, some ⟨items, totalItems, page,
          if limit = 0 then none else some ((totalItems + limit.toNat - 1) / limit.toNat)⟩⟩
      else ⟨500, none⟩
    else ⟨500, none⟩
  | _, _ => ⟨500, none⟩

/-! ## PUT/DELETE /api/items/[id] (src/app/api/items/[id]/route.ts)

The handlers call the async jose `verifyToken` without awaiting it, so the
returned promise object is always truthy and the authentication check
reduces to the presence of the `token` cookie (`tokenPresent`). -/

/-- Request body of `PUT /api/items/[id]` (the TypeScript `UpdateItemData`
shape).  `quantity` may arrive as a number or a string; the handler feeds it
through `parseInt(String(q))`, so the supplied value is modelled as its
parse result (`none` = `NaN`). -/
structure ItemUpdateBody where
  storeName : Option String
  itemName : Option String
  quantity : Option (Option Int)
  specification : Option String
  deliveryMethod : Option DeliveryMethod
  progressStatus : Option ProgressStatus
  notes : Option String
deriving DecidableEq, Repr

/-- The `updatePayload` assembled by `PUT /api/items/[id]` (one `Option` per
column; `notes` distinguishes "not supplied" from "supplied as `''`, stored
as `null`"). -/
structure ItemPatch where
  storeName : Option String
  itemName : Option String
  quantity : Option Int
  specification : Option String
  deliveryMethod : Option DeliveryMethod
  progressStatus : Option ProgressStatus
  notes : Option (Option String)
deriving DecidableEq, Repr

/-- Build the `updatePayload` from the request body; a `NaN` or negative
quantity aborts with 400. -/
def buildItemPatch (d : ItemUpdateBody) : Except Nat ItemPatch :=
  match d.quantity with
  | none =>
      .ok ⟨d.storeName, d.itemName, none, d.specification, d.deliveryMethod,
        d.progressStatus, d.notes.map (fun s => if s = "" then none else some s)⟩
  | some none => .error 400
  | some (some q) =>
      if q < 0 then .error 400
      else
        .ok ⟨d.storeName, d.itemName, some q, d.specification, d.deliveryMethod,
          d.progressStatus, d.notes.map (fun s => if s = "" then none else some s)⟩

/-- Number of columns the patch touches (the `Object.keys(updatePayload)`
count, not counting the always-present `updatedAt`). -/
def patchKeyCount (p : ItemPatch) : Nat :=
  (if p.storeName.isSome then 1 else 0) + (if p.itemName.isSome then 1 else 0) +
  (if p.quantity.isSome then 1 else 0) + (if p.specification.isSome then 1 else 0) +
  (if p.deliveryMethod.isSome then 1 else 0) + (if p.progressStatus.isSome then 1 else 0) +
  (if p.notes.isSome then 1 else 0)

/-- Apply the patch to a stored item; `updatedAt` is always set to `now`. -/
def applyItemPatch (now : Int) (p : ItemPatch) (it : Item) : Item :=
  { it with
    storeName := p.storeName.getD it.storeName
    itemName := p.itemName.getD it.itemName
    quantity := p.quantity.getD it.quantity
    specification := p.specification.getD it.specification
    deliveryMethod := p.deliveryMethod.getD it.deliveryMethod
    progressStatus := p.progressStatus.getD it.progressStatus
    notes := match p.notes with | none => it.notes | some v => v
    updatedAt := now }

/-- Response of an item mutation: status plus the table it leaves behind. -/
structure ItemMutResponse where
  status : Nat
  db : List Item
deriving DecidableEq, Repr

/-- Embedding of `PUT` of `src/app/api/items/[id]/route.ts`: auth, id parse, body parse
(`none` = unparseable JSON, caught as `SyntaxError` → 400), payload build,
empty-payload check, then `prisma.item.update` (`P2025` → 404). -/
def itemsIdPUT (now : Int) (tokenPresent : Bool) (idStr : String)
    (body : Option ItemUpdateBody) (db : List Item) : ItemMutResponse :=
  if !tokenPresent then ⟨401, db⟩
  else
    match jsParseInt idStr with
    | none => ⟨400, db⟩
    | some itemId =>
      match body with
      | none => ⟨400, db⟩
      | some d =>
        match buildItemPatch d with
        | .error st => ⟨st, db⟩
        | .ok patch =>
          if patchKeyCount patch = 0 then ⟨400, db⟩
          else
            match db.find? (fun it => decide (it.id = itemId)) with
            | none => ⟨404, db⟩
            | some _ =>
                ⟨200, db.map (fun it => if it.id = itemId then applyItemPatch now patch it else it)⟩

/-- Embedding of `DELETE` of `src/app/api/items/[id]/route.ts`: auth, id parse, then
`prisma.item.delete` (`P2025` for a missing row → 404). -/
def itemsIdDELETE (tokenPresent : Bool) (idStr : String) (db : List Item) : ItemMutResponse :=
  if !tokenPresent then ⟨401, db⟩
  else
    match jsParseInt idStr with
    | none => ⟨400, db⟩
    | some itemId =>
      match db.find? (fun it => decide (it.id = itemId)) with
      | none => ⟨404, db⟩
      | some _ => ⟨200, db.filter (fun it => !(decide (it.id = itemId)))⟩

/-! ## PUT/DELETE /api/todos/[id] (src/app/api/todos/[id]/route.ts) -/

/-- A JSON scalar, as far as the todo and event bodies need one. -/
inductive JVal where
  | str (s : String)
  | num (n : Int)
  | jbool (b : Bool)
  | null
deriving DecidableEq, Repr

/-- Raw JSON body of a todo update (each key absent or some JSON value). -/
structure TodoUpdateRaw where
  text : Option JVal
  completed : Option JVal
  priority : Option JVal
  deadline : Option JVal
  userId : Option JVal
deriving DecidableEq, Repr

/-- Validated output of `todoUpdateSchema`. -/
structure TodoUpdateData where
  text : Option String
  completed : Option Bool
  priority : Option TodoPriority
  deadline : Option (Option String)
  userId : Option (Option Int)
deriving DecidableEq, Repr

/-- Embedding of `todoUpdateSchema.safeParse`:
`text: z.string().trim().min(1).optional()` — any string whose trimmed
length is at least 1 (note: no upper bound);
`completed`: boolean; `priority`: the enum; `deadline`: an ISO datetime
string or `null` (`isDatetime` abstracts zod's format check); `userId`: a
coerced integer or `null`. -/
def parseTodoUpdate (isDatetime : String → Bool) (r : TodoUpdateRaw) :
    Option TodoUpdateData := do
  let text ←
    match r.text with
    | none => some none
    | some (.str s) => let t := jsTrim s; if 1 ≤ t.length then some (some t) else none
    | some _ => none
  let completed ←
    match r.completed with
    | none => some none
    | some (.jbool b) => some (some b)
    | some _ => none
  let priority ←
    match r.priority with
    | none => some none
    | some (.str s) => (parsePriority s).map some
    | some _ => none
  let deadline ←
    match r.deadline with
    | none => some none
    | some .null => some (some none)
    | some (.str s) => if isDatetime s then some (some (some s)) else none
    | some _ => none
  let userId ←
    match r.userId with
    | none => some none
    | some .null => some (some none)
    | some (.num n) => some (some (some n))
    | some (.str s) =>
        match jsNumberInt s with
        | none => none
        | some n => some (some (some n))
    | some (.jbool b) => some (some (some (if b then (1 : Int) else 0)))
  some ⟨text, completed, priority, deadline, userId⟩

/-- Apply a validated todo update; Prisma ignores `undefined` keys, so only
supplied fields change, and `@updatedAt` refreshes the timestamp.
`parseDt` abstracts the conversion of the validated ISO string to a stored
`DateTime`. -/
def applyTodoUpdate (now : Int) (parseDt : String → Int) (d : TodoUpdateData) (t : Todo) : Todo :=
  { t with
    text := d.text.getD t.text
    completed := d.completed.getD t.completed
    priority := d.priority.getD t.priority
    deadline := match d.deadline with
      | none => t.deadline
      | some none => none
      | some (some s) => some (parseDt s)
    userId := match d.userId with | none => t.userId | some v => v
    updatedAt := now }

/-- Response of a todo mutation: status plus the table it leaves behind. -/
structure TodoMutResponse where
  status : Nat
  db : List Todo
deriving DecidableEq, Repr

/-- Embedding of `PUT` of `src/app/api/todos/[id]/route.ts`: empty id → 400, unparseable
JSON body (`none`) → the catch-all 500, schema failure → 400, missing todo →
404, supplied non-null `userId` must name an existing user (else 400), then
the partial update. -/
def todosIdPUT (isDatetime : String → Bool) (parseDt : String → Int) (now : Int)
    (users : List User) (db : List Todo) (id : String)
    (body : Option TodoUpdateRaw) : TodoMutResponse :=
  if id = "" then ⟨400, db⟩
  else
    match body with
    | none => ⟨500, db⟩
    | some raw =>
      match parseTodoUpdate isDatetime raw with
      | none => ⟨400, db⟩
      | some d =>
        match db.find? (fun t => decide (t.id = id)) with
        | none => ⟨404, db⟩
        | some _ =>
          match d.userId with
          | some (some uid) =>
            if (users.find? (fun u => decide (u.id = uid))).isNone then ⟨400, db⟩
            else ⟨200, db.map (fun t => if t.id = id then applyTodoUpdate now parseDt d t else t)⟩
          | _ => ⟨200, db.map (fun t => if t.id = id then applyTodoUpdate now parseDt d t else t)⟩

/-- Embedding of `DELETE` of `src/app/api/todos/[id]/route.ts`: empty id → 400, missing
todo → 404, otherwise delete and 200. -/
def todosIdDELETE (db : List Todo) (id : String) : TodoMutResponse :=
  if id = "" then ⟨400, db⟩
  else
    match db.find? (fun t => decide (t.id = id)) with
    | none => ⟨404, db⟩
    | some _ => ⟨200, db.filter (fun t => !(decide (t.id = id)))⟩

/-! ## PUT/PATCH/DELETE /api/events/[id] (src/app/api/events/[id]/route.ts)

`getAuthenticatedUserId` reads the middleware's `x-user-id` header; its
result is the `auth : Option Int` parameter. -/

/-- JavaScript truthiness of a JSON scalar. -/
def jsTruthy : JVal → Bool
  | .str s => !(decide (s = ""))
  | .num n => !(decide (n = 0))
  | .jbool b => b
  | .null => false

/-- Embedding of `new Date(v).getTime()` on a JSON scalar: numbers are epoch millis,
strings go through date parsing (abstracted as `parseDate`; `none` =
`Invalid Date`), booleans coerce to 0/1, `null` to 0. -/
def jsDate (parseDate : String → Option Int) : JVal → Option Int
  | .num n => some n
  | .str s => parseDate s
  | .jbool b => some (if b then 1 else 0)
  | .null => some 0

/-- Raw JSON body of an event update (`endv` embeds the JSON key `end`, a
Lean keyword). -/
structure EventBody where
  title : Option JVal
  start : Option JVal
  endv : Option JVal
  allDay : Option JVal
  color : Option JVal
  description : Option JVal
deriving DecidableEq, Repr

/-- The `updateData` object assembled by the event `PUT`: validated
title/start/end/allDay, while `color` and `description` are copied through
as arbitrary JSON values. -/
structure EventUpdate where
  title : Option String
  start : Option Int
  endv : Option (Option Int)
  allDay : Option Bool
  color : Option JVal
  description : Option JVal
deriving DecidableEq, Repr

/-- Embedding of `Object.keys(updateData).length` for the event update. -/
def eventUpdateKeyCount (u : EventUpdate) : Nat :=
  (if u.title.isSome then 1 else 0) + (if u.start.isSome then 1 else 0) +
  (if u.endv.isSome then 1 else 0) + (if u.allDay.isSome then 1 else 0) +
  (if u.color.isSome then 1 else 0) + (if u.description.isSome then 1 else 0)

/-- Field-level validation and cross-field date checks of the event `PUT`,
in source order: title must be a non-blank string; start must be a valid
date; a truthy `end` must be a valid date (falsy `end` stores `null`);
`allDay` must be a boolean; then the three start/end consistency checks
against the supplied values and the existing row. -/
def buildEventUpdate (parseDate : String → Option Int) (ev : CalendarEvent)
    (b : EventBody) : Except Nat EventUpdate := do
  let title ←
    match b.title with
    | none => .ok none
    | some (.str s) => if jsTrim s = "" then .error 400 else .ok (some (jsTrim s))
    | some _ => .error 400
  let start ←
    match b.start with
    | none => .ok none
    | some v =>
      match jsDate parseDate v with
      | none => .error 400
      | some ts => .ok (some ts)
  let endv ←
    match b.endv with
    | none => .ok none
    | some v =>
      if jsTruthy v then
        match jsDate parseDate v with
        | none => .error 400
        | some ts => .ok (some (some ts))
      else .ok (some (none : Option Int))
  let allDay ←
    match b.allDay with
    | none => .ok none
    | some (.jbool bb) => .ok (some bb)
    | some _ => .error 400
  if (match start, endv with
      | some st, some (some en) => decide (en < st)
      | _, _ => false) then
    .error 400
  else if (match start, endv, ev.endTime with
      | some st, none, some ee => decide (ee < st)
      | some st, some none, some ee => decide (ee < st)
      | _, _, _ => false) then
    .error 400
  else if (match endv, start with
      | some (some en), none => decide (en < ev.start)
      | _, _ => false) then
    .error 400
  else
    .ok ⟨title, start, endv, allDay, b.color, b.description⟩

/-- What Prisma accepts for a nullable `String?` column: absent, a string,
or `null`; any other JSON type makes the update call throw (mapped to 500 by
the catch-all). -/
def jvalColumn : Option JVal → Option (Option (Option String))
  | none => some none
  | some (.str s) => some (some (some s))
  | some .null => some (some none)
  | some _ => none

/-- Apply the event update to the stored row (`@updatedAt` refreshes the
timestamp; `c`/`dsc` are the Prisma-validated color/description columns). -/
def applyEventUpdate (now : Int) (u : EventUpdate)
    (c dsc : Option (Option String)) (ev : CalendarEvent) : CalendarEvent :=
  { ev with
    title := u.title.getD ev.title
    start := u.start.getD ev.start
    endTime := match u.endv with | none => ev.endTime | some v => v
    allDay := u.allDay.getD ev.allDay
    color := match c with | none => ev.color | some v => v
    description := match dsc with | none => ev.description | some v => v
    updatedAt := now }

/-- Response of an event mutation: status plus the table it leaves behind. -/
structure EventMutResponse where
  status : Nat
  db : List CalendarEvent
deriving DecidableEq, Repr

/-- Embedding of `PUT` of `src/app/api/events/[id]/route.ts`: auth (401), JSON parse
(`none` = `SyntaxError` → 400), existence (404), ownership (403), field and
cross-field validation, empty-update check, then the update. -/
def eventsPUT (parseDate : String → Option Int) (now : Int) (auth : Option Int)
    (eventId : String) (body : Option EventBody) (db : List CalendarEvent) : EventMutResponse :=
  match auth with
  | none => ⟨401, db⟩
  | some uid =>
    match body with
    | none => ⟨400, db⟩
    | some b =>
      match db.find? (fun e => decide (e.id = eventId)) with
      | none => ⟨404, db⟩
      | some ev =>
        if decide (¬ ev.userId = uid) then ⟨403, db⟩
        else
          match buildEventUpdate parseDate ev b with
          | .error st => ⟨st, db⟩
          | .ok u =>
            if eventUpdateKeyCount u = 0 then ⟨400, db⟩
            else
              match jvalColumn u.color, jvalColumn u.description with
              | some c, some dsc =>
                  ⟨200, db.map (fun e => if e.id = eventId then applyEventUpdate now u c dsc e else e)⟩
              | _, _ => ⟨500, db⟩

/-- The `PATCH` handler of the same file delegates to `PUT`. -/
def eventsPATCH (parseDate : String → Option Int) (now : Int) (auth : Option Int)
    (eventId : String) (body : Option EventBody) (db : List CalendarEvent) : EventMutResponse :=
  eventsPUT parseDate now auth eventId body db

/-- Embedding of `DELETE` of `src/app/api/events/[id]/route.ts`: auth (401), existence
(404), ownership (403), then the delete. -/
def eventsDELETE (auth : Option Int) (eventId : String)
    (db : List CalendarEvent) : EventMutResponse :=
  match auth with
  | none => ⟨401, db⟩
  | some uid =>
    match db.find? (fun e => decide (e.id = eventId)) with
    | none => ⟨404, db⟩
    | some ev =>
      if decide (¬ ev.userId = uid) then ⟨403, db⟩
      else ⟨200, db.filter (fun e => !(decide (e.id = eventId)))⟩

/-! ## GET /api/dashboard (src/app/api/dashboard/route.ts)

The handler only issues `groupBy`/`count` queries; the embedding is a pure
function of the `items` table, and the response carries the table through
unchanged to state the absence of writes. -/

/-- A per-store quantity total. -/
structure StoreQty where
  storeName : String
  totalQuantity : Int
deriving DecidableEq, Repr

/-- A per-delivery-method count (display name plus count). -/
structure DeliveryCount where
  name : String
  count : Nat
deriving DecidableEq, Repr

/-- A per-status count (status, Korean display name, count). -/
structure StatusCount where
  status : ProgressStatus
  name : String
  count : Nat
deriving DecidableEq, Repr

/-- A per-store count. -/
structure StoreCount where
  storeName : String
  count : Nat
deriving DecidableEq, Repr

/-- The `overallStats` object. -/
structure OverallStats where
  totalItems : Nat
  totalUnconfirmed : Nat
  totalInProgress : Nat
  totalCompleted : Nat
deriving DecidableEq, Repr

/-- The dashboard JSON body. -/
structure DashboardBody where
  storeData : List StoreQty
  deliveryData : List DeliveryCount
  progressStatusCounts : List StatusCount
  unconfirmedByStore : List StoreCount
  inProgressByStore : List StoreCount
  overallStats : OverallStats
deriving DecidableEq, Repr

/-- Distinct store names of a table (the groups of `groupBy(['storeName'])`). -/
def storeKeys (db : List Item) : List String :=
  (db.map (fun it => it.storeName)).dedup

/-- Embedding of `translateProgressStatus` of the dashboard route. -/
def translateProgressStatus : ProgressStatus → String
  | .UNCONFIRMED => "미확인"
  | .IN_PROGRESS => "진행 중"
  | .COMPLETED => "완료"

/-- Per-store quantity totals, ordered by total descending
(`orderBy: { _sum: { quantity: 'desc' } }`). -/
def storeQuantityData (db : List Item) : List StoreQty :=
  sortByBool (fun a b => decide (b.totalQuantity ≤ a.totalQuantity))
    ((storeKeys db).map (fun s =>
      ⟨s, ((db.filter (fun it => decide (it.storeName = s))).map (fun it => it.quantity)).sum⟩))

/-- Per-store counts of items in a given status, ordered by count descending. -/
def statusByStore (db : List Item) (ps : ProgressStatus) : List StoreCount :=
  let sub := db.filter (fun it => decide (it.progressStatus = ps))
  sortByBool (fun a b => decide (b.count ≤ a.count))
    ((storeKeys sub).map (fun s =>
      ⟨s, (sub.filter (fun it => decide (it.storeName = s))).length⟩))

/-- Response of `GET /api/dashboard`.  The `db` component is the `items`
table after the request: the handler performs no writes, so it is always the
input table. -/
structure DashboardResponse where
  status : Nat
  body : Option DashboardBody
  db : List Item
deriving DecidableEq, Repr

/-- Embedding of `GET` of `src/app/api/dashboard/route.ts`.  The un-awaited jose
`verifyToken` promise is always truthy, so the auth check reduces to cookie
presence.  The six aggregates follow the source's queries. -/
def dashboardGET (tokenPresent : Bool) (db : List Item) : DashboardResponse :=
  if !tokenPresent then ⟨401, none, db⟩
  else
    let statuses := (db.map (fun it => it.progressStatus)).dedup
    let methods := (db.map (fun it => it.deliveryMethod)).dedup
    ⟨200, some
      { storeData := storeQuantityData db
        deliveryData := methods.map (fun m =>
          ⟨(if m = .DIRECT then "직접배송" else "택배출고"),
           (db.filter (fun it => decide (it.deliveryMethod = m))).length⟩)
        progressStatusCounts :=
          sortByBool (fun a b => decide (statusRank a.status ≤ statusRank b.status))
            (statuses.map (fun ps =>
              ⟨ps, translateProgressStatus ps,
               (db.filter (fun it => decide (it.progressStatus = ps))).length⟩))
        unconfirmedByStore := statusByStore db .UNCONFIRMED
        inProgressByStore := statusByStore db .IN_PROGRESS
        overallStats :=
          { totalItems := db.length
            totalUnconfirmed := (db.filter (fun it => decide (it.progressStatus = .UNCONFIRMED))).length
            totalInProgress := (db.filter (fun it => decide (it.progressStatus = .IN_PROGRESS))).length
            totalCompleted := (db.filter (fun it => decide (it.progressStatus = .COMPLETED))).length } },
      db⟩

/-! ## Shared lemmas -/

/-- Inserting into a sorted list grows the length by one. -/
theorem length_insertSorted (le : α → α → Bool) (x : α) (l : List α) :
    (insertSorted le x l).length = l.length + 1 := by
  induction l with
  | nil => rfl
  | cons y ys ih =>
    simp only [insertSorted]
    split
    · rfl
    · simp [ih]

/-- The sort `sortByBool` preserves length. -/
theorem length_sortByBool (le : α → α → Bool) (l : List α) :
    (sortByBool le l).length = l.length := by
  induction l with
  | nil => rfl
  | cons x xs ih => simp [sortByBool, length_insertSorted, ih]

/-- A `find?` for `p` over a list from which every `p`-element was filtered
out yields nothing. -/
theorem find?_filter_not (l : List α) (p : α → Bool) :
    (l.filter (fun x => !(p x))).find? p = none := by
  apply List.find?_eq_none.mpr
  intro x hx
  have hmem := List.mem_filter.mp hx
  simp only [Bool.not_eq_true'] at hmem
  simp [hmem.2]

/-- A successfully parsed `page` is at least 1, and defaults to 1. -/
theorem parsePageParam_bounds (o : Option String) (n : Nat)
    (h : parsePageParam o = some n) : 1 ≤ n ∧ (o = none → n = 1) := by
  cases o with
  | none => simp [parsePageParam] at h; omega
  | some s =>
    refine ⟨?_, by simp⟩
    simp only [parsePageParam] at h
    cases hj : jsNumberInt s with
    | none => rw [hj] at h; simp at h
    | some m =>
      rw [hj] at h
      by_cases hm : 1 ≤ m
      · simp [hm] at h; omega
      · simp [hm] at h

/-- A successfully parsed `limit` is in `[1, 100]`, and defaults to 10. -/
theorem parseLimitParam_bounds (o : Option String) (n : Nat)
    (h : parseLimitParam o = some n) : 1 ≤ n ∧ n ≤ 100 ∧ (o = none → n = 10) := by
  cases o with
  | none => simp [parseLimitParam] at h; omega
  | some s =>
    refine ⟨?_, ?_, by simp⟩ <;>
    · simp only [parseLimitParam] at h
      cases hj : jsNumberInt s with
      | none => rw [hj] at h; simp at h
      | some m =>
        rw [hj] at h
        by_cases hm : 1 ≤ m ∧ m ≤ 100
        · simp [hm] at h; omega
        · simp [hm] at h

/-- Decompose a successful `paginationSchema` parse into its field parses. -/
theorem parseTodoListParams_eq (p : TodoListParams) (q : TodoListQuery)
    (h : parseTodoListParams p = some q) :
    parsePageParam p.page = some q.page ∧ parseLimitParam p.limit = some q.limit ∧
    parseUserIdParam p.userId = some q.userId ∧
    parseCompletedParam p.completed = some q.completed ∧
    parsePriorityParam p.priority = some q.priority ∧
    p.search.map jsTrim = q.search := by
  simp only [parseTodoListParams, bind, Option.bind] at h
  cases h1 : parsePageParam p.page with
  | none => rw [h1] at h; simp at h
  | some page =>
    rw [h1] at h
    cases h2 : parseLimitParam p.limit with
    | none => rw [h2] at h; simp at h
    | some limit =>
      rw [h2] at h
      cases h3 : parseUserIdParam p.userId with
      | none => rw [h3] at h; simp at h
      | some userId =>
        rw [h3] at h
        cases h4 : parseCompletedParam p.completed with
        | none => rw [h4] at h; simp at h
        | some completed =>
          rw [h4] at h
          cases h5 : parsePriorityParam p.priority with
          | none => rw [h5] at h; simp at h
          | some priority =>
            rw [h5] at h
            simp only [Option.some.injEq] at h
            subst h
            exact ⟨rfl, rfl, rfl, rfl, rfl, rfl⟩

/-- The natural number `(a + b - 1) / b` (the embedding of `Math.ceil(a / b)` for a
positive `b`) is the rational ceiling of `a / b`. -/
theorem natCeilDiv_cast (a b : ℕ) (hb : 0 < b) :
    (((a + b - 1) / b : ℕ) : ℤ) = ⌈(a : ℚ) / (b : ℚ)⌉ := by
  have hbq : (0 : ℚ) < (b : ℚ) := by exact_mod_cast hb
  have hqr : b * ((a + b - 1) / b) + (a + b - 1) % b = a + b - 1 := Nat.div_add_mod _ _
  have hr : (a + b - 1) % b < b := Nat.mod_lt _ hb
  have hab : 1 ≤ a + b := by omega
  have hqrQ : (b : ℚ) * (((a + b - 1) / b : ℕ) : ℚ) + (((a + b - 1) % b : ℕ) : ℚ) =
      (a : ℚ) + (b : ℚ) - 1 := by
    have hcast := congrArg (fun n : ℕ => (n : ℚ)) hqr
    push_cast [Nat.cast_sub hab] at hcast
    exact hcast
  have hr1Q : (((a + b - 1) % b : ℕ) : ℚ) + 1 ≤ (b : ℚ) := by exact_mod_cast hr
  have hr0Q : (0 : ℚ) ≤ (((a + b - 1) % b : ℕ) : ℚ) := by positivity
  rw [eq_comm, Int.ceil_eq_iff]
  constructor
  · rw [Int.cast_natCast, lt_div_iff₀ hbq]
    nlinarith [hqrQ, hr1Q, hr0Q]
  · rw [Int.cast_natCast, div_le_iff₀ hbq]
    nlinarith [hqrQ, hr1Q, hr0Q]

/-! ## Claim theorems -/

/-- C1: for a request to a non-allowlisted `/api/` path whose token cookie
verifies to a user whose resolved role is `USER`, the middleware responds
403 without forwarding when the method is POST/PUT/PATCH/DELETE, and
forwards the request (attaching the identity headers) when the method is
GET; the forwarded `GET /api/items` is answered 200 by the items handler on
any table. -/
theorem C1_user_role_method_gate (verify : String → Option String)
    (fetchRole : String → RoleFetch) (pathname method tok uid : String)
    (hpath : jsStartsWith pathname "/api/" = true)
    (hpub : publicPaths.any (fun p => jsStartsWith pathname p) = false)
    (htok : ¬ tok = "")
    (hver : verify tok = some uid)
    (huid : ¬ uid = "")
    (hrole : fetchRole uid = .ok (some "USER")) :
    (method ∈ protectedMethods →
      middleware verify fetchRole pathname method (some tok) = .respond 403 false) ∧
    (method = "GET" →
      middleware verify fetchRole pathname method (some tok) = .nextWith uid "USER") ∧
    (∀ db : List Item, (itemsGET ⟨none, none, none, none, none, none⟩ db).status = 200) := by
  refine ⟨?_, ?_, ?_⟩
  · intro hm
    fin_cases hm <;>
      simp [middleware, hpub, hpath, htok, hver, huid, hrole, jsToUpper, upperChar,
        protectedMethods]
  · intro hm
    subst hm
    simp [middleware, hpub, hpath, htok, hver, huid, hrole, jsToUpper, upperChar,
      protectedMethods]
  · intro db
    simp [itemsGET, orDefault, jsParseInt, trimChars, parseLeadingDigits, isWsChar,
      isDigitChar, digitsToNat, itemSortFields]

/-- Witness for C1: a concrete USER-role caller is rejected 403 on
`DELETE /api/items/5` and forwarded on `GET /api/items`. -/
theorem C1_user_role_method_gate_witness :
    middleware (fun t => if t = "tok" then some "7" else none)
      (fun u => if u = "7" then RoleFetch.ok (some "USER") else .badStatus)
      "/api/items/5" "DELETE" (some "tok") = .respond 403 false ∧
    middleware (fun t => if t = "tok" then some "7" else none)
      (fun u => if u = "7" then RoleFetch.ok (some "USER") else .badStatus)
      "/api/items" "GET" (some "tok") = .nextWith "7" "USER" := by
  constructor
  · exact (C1_user_role_method_gate _ _ "/api/items/5" "DELETE" "tok" "7"
      (by decide) (by decide) (by decide) (by rfl) (by decide) (by rfl)).1 (by decide)
  · exact (C1_user_role_method_gate _ _ "/api/items" "GET" "tok" "7"
      (by decide) (by decide) (by decide) (by rfl) (by decide) (by rfl)).2.1 rfl

/-- C6: token verification is total with a `null` failure mode: whatever the
underlying JWT library does (returns the payload or throws any error), both
`verifyToken` variants either return the embedded payload of a successful
verification or return `none`; every thrown error (malformed, forged,
expired token) is mapped to `none`, never propagated. -/
theorem C6_verifyToken_never_throws
    (jv : String → Except JoseError AuthTokenPayload)
    (jv2 : String → Except JoseError JwtPayload) (t : String) (e : JoseError) :
    (jv t = .error e → verifyTokenJose jv t = none) ∧
    (verifyTokenJose jv t = none ∨ ∃ p, jv t = .ok p ∧ verifyTokenJose jv t = some p) ∧
    (jv2 t = .error e → verifyTokenJwt jv2 t = none) ∧
    (verifyTokenJwt jv2 t = none ∨ ∃ p, jv2 t = .ok p ∧ verifyTokenJwt jv2 t = some p) := by
  refine ⟨?_, ?_, ?_, ?_⟩
  · intro h
    by_cases ht : t = "" <;> simp [verifyTokenJose, ht, h]
  · by_cases ht : t = ""
    · left; simp [verifyTokenJose, ht]
    · cases h : jv t with
      | ok p => right; exact ⟨p, rfl, by simp [verifyTokenJose, ht, h]⟩
      | error er => left; simp [verifyTokenJose, ht, h]
  · intro h
    simp [verifyTokenJwt, h]
  · cases h : jv2 t with
    | ok p => right; exact ⟨p, rfl, by simp [verifyTokenJwt, h]⟩
    | error er => left; simp [verifyTokenJwt, h]

/-- Witness for C6: a concrete always-throwing verifier (an expired token)
yields `none` from both variants. -/
theorem C6_verifyToken_never_throws_witness :
    verifyTokenJose (fun _ => .error JoseError.expired) "forged" = none ∧
    verifyTokenJwt (fun _ => .error JoseError.expired) "forged" = none := by
  constructor
  · exact (C6_verifyToken_never_throws (fun _ => .error JoseError.expired)
      (fun _ => .error JoseError.expired) "forged" JoseError.expired).1 rfl
  · exact (C6_verifyToken_never_throws (fun _ => .error JoseError.expired)
      (fun _ => .error JoseError.expired) "forged" JoseError.expired).2.2.1 rfl

/-- C7: deleting a missing id answers 404 (never 500) and leaves the table
unchanged, and deleting an existing id twice yields one 200 then one 404,
for both `DELETE /api/todos/[id]` (any non-empty string id) and
`DELETE /api/items/[id]` (any id string parsing to a number, with the token
cookie present). -/
theorem C7_delete_idempotence (dbT : List Todo) (dbI : List Item)
    (id idStr : String) (n : Int)
    (hid : ¬ id = "") (hn : jsParseInt idStr = some n) :
    (dbT.find? (fun t => decide (t.id = id)) = none →
      todosIdDELETE dbT id = ⟨404, dbT⟩) ∧
    (∀ t0, dbT.find? (fun t => decide (t.id = id)) = some t0 →
      (todosIdDELETE dbT id).status = 200 ∧
      (todosIdDELETE (todosIdDELETE dbT id).db id).status = 404) ∧
    (dbI.find? (fun it => decide (it.id = n)) = none →
      itemsIdDELETE true idStr dbI = ⟨404, dbI⟩) ∧
    (∀ i0, dbI.find? (fun it => decide (it.id = n)) = some i0 →
      (itemsIdDELETE true idStr dbI).status = 200 ∧
      (itemsIdDELETE true idStr (itemsIdDELETE true idStr dbI).db).status = 404) := by
  refine ⟨?_, ?_, ?_, ?_⟩
  · intro h
    simp [todosIdDELETE, hid, h]
  · intro t0 h
    refine ⟨by simp [todosIdDELETE, hid, h], ?_⟩
    have h1 : (todosIdDELETE dbT id).db = dbT.filter (fun t => !(decide (t.id = id))) := by
      simp [todosIdDELETE, hid, h]
    rw [h1]
    simp only [todosIdDELETE, if_neg hid]
    rw [find?_filter_not]
  · intro h
    simp [itemsIdDELETE, hn, h]
  · intro i0 h
    refine ⟨by simp [itemsIdDELETE, hn, h], ?_⟩
    have h1 : (itemsIdDELETE true idStr dbI).db = dbI.filter (fun it => !(decide (it.id = n))) := by
      simp [itemsIdDELETE, hn, h]
    rw [h1]
    simp only [itemsIdDELETE, hn, Bool.not_true, Bool.false_eq_true, if_false]
    rw [find?_filter_not]

/-- Witness for C7: one todo and one item table, a missing id answering 404
unchanged, and a double delete answering 200 then 404. -/
theorem C7_delete_idempotence_witness :
    todosIdDELETE [⟨"t1", "x", false, .MEDIUM, 0, 0, none, none⟩] "zz" =
      ⟨404, [⟨"t1", "x", false, .MEDIUM, 0, 0, none, none⟩]⟩ ∧
    (todosIdDELETE [⟨"t1", "x", false, .MEDIUM, 0, 0, none, none⟩] "t1").status = 200 ∧
    (todosIdDELETE (todosIdDELETE [⟨"t1", "x", false, .MEDIUM, 0, 0, none, none⟩] "t1").db
      "t1").status = 404 ∧
    itemsIdDELETE true "9" [⟨5, "김포", "드라이버 박스", 1, "1개", .DIRECT, none, 0, 0, .UNCONFIRMED⟩] =
      ⟨404, [⟨5, "김포", "드라이버 박스", 1, "1개", .DIRECT, none, 0, 0, .UNCONFIRMED⟩]⟩ ∧
    (itemsIdDELETE true "5"
      [⟨5, "김포", "드라이버 박스", 1, "1개", .DIRECT, none, 0, 0, .UNCONFIRMED⟩]).status = 200 ∧
    (itemsIdDELETE true "5" (itemsIdDELETE true "5"
      [⟨5, "김포", "드라이버 박스", 1, "1개", .DIRECT, none, 0, 0, .UNCONFIRMED⟩]).db).status = 404 := by
  have hmiss := C7_delete_idempotence
    [⟨"t1", "x", false, .MEDIUM, 0, 0, none, none⟩]
    [⟨5, "김포", "드라이버 박스", 1, "1개", .DIRECT, none, 0, 0, .UNCONFIRMED⟩]
    "zz" "9" 9 (by decide) (by decide)
  have hhit := C7_delete_idempotence
    [⟨"t1", "x", false, .MEDIUM, 0, 0, none, none⟩]
    [⟨5, "김포", "드라이버 박스", 1, "1개", .DIRECT, none, 0, 0, .UNCONFIRMED⟩]
    "t1" "5" 5 (by decide) (by decide)
  have h2 := hhit.2.1 ⟨"t1", "x", false, .MEDIUM, 0, 0, none, none⟩ (by rfl)
  have h4 := hhit.2.2.2 ⟨5, "김포", "드라이버 박스", 1, "1개", .DIRECT, none, 0, 0, .UNCONFIRMED⟩ (by rfl)
  exact ⟨hmiss.1 (by rfl), h2.1, h2.2, hmiss.2.2.1 (by decide), h4.1, h4.2⟩

/-- C8: login with a username that resolves to a stored user and a password
that bcrypt-matches its hash answers 200 with the public user body and sets
the httpOnly `token` cookie holding the signed token for that user
(SameSite strict, 7-day max age); an unknown username or a non-matching
password answers 401 and sets no cookie. -/
theorem C8_login_contract (cmp : String → String → Bool) (sign : Int → String)
    (isProd : Bool) (db : List User) (username password : String) :
    (∀ u, db.find? (fun v => decide (v.username = username)) = some u →
      cmp password u.password = true → ¬ u.password = "" →
      loginPOST cmp sign isProd db username password =
        ⟨200, some (u.id, u.username, u.role),
          some ⟨"token", sign u.id, true, isProd, true, 60 * 60 * 24 * 7⟩⟩) ∧
    (db.find? (fun v => decide (v.username = username)) = none →
      loginPOST cmp sign isProd db username password = ⟨401, none, none⟩) ∧
    (∀ u, db.find? (fun v => decide (v.username = username)) = some u →
      cmp password u.password = false →
      loginPOST cmp sign isProd db username password = ⟨401, none, none⟩) := by
  refine ⟨?_, ?_, ?_⟩
  · intro u hfind hcmp hhash
    simp [loginPOST, hfind, verifyPassword, hhash, hcmp]
  · intro hfind
    simp [loginPOST, hfind]
  · intro u hfind hcmp
    by_cases hh : u.password = "" <;> simp [loginPOST, hfind, verifyPassword, hh, hcmp]

/-- Witness for C8: a one-user store where `admin`/correct password logs in
with the cookie set, and a wrong password or unknown user gets 401 with no
cookie. -/
theorem C8_login_contract_witness :
    loginPOST (fun p h => decide (p = "pw") && decide (h = "hashedpw")) (fun _ => "tok-admin")
      false [⟨1, "admin", "hashedpw", .ADMIN, 0, 0⟩] "admin" "pw" =
      ⟨200, some (1, "admin", .ADMIN), some ⟨"token", "tok-admin", true, false, true, 60 * 60 * 24 * 7⟩⟩ ∧
    loginPOST (fun p h => decide (p = "pw") && decide (h = "hashedpw")) (fun _ => "tok-admin")
      false [⟨1, "admin", "hashedpw", .ADMIN, 0, 0⟩] "admin" "wrong" = ⟨401, none, none⟩ ∧
    loginPOST (fun p h => decide (p = "pw") && decide (h = "hashedpw")) (fun _ => "tok-admin")
      false [⟨1, "admin", "hashedpw", .ADMIN, 0, 0⟩] "nobody" "pw" = ⟨401, none, none⟩ := by
  have h := C8_login_contract (fun p h => decide (p = "pw") && decide (h = "hashedpw"))
    (fun _ => "tok-admin") false [⟨1, "admin", "hashedpw", .ADMIN, 0, 0⟩]
  exact ⟨(h "admin" "pw").1 ⟨1, "admin", "hashedpw", .ADMIN, 0, 0⟩ (by rfl) (by decide) (by decide),
    (h "admin" "wrong").2.2 ⟨1, "admin", "hashedpw", .ADMIN, 0, 0⟩ (by rfl) (by decide),
    (h "nobody" "pw").2.1 (by rfl)⟩

/-- C2: for every valid pagination input to `GET /api/todos`, the returned
page holds at most `limit` records, `meta.totalCount` is the number of todos
matching the filters, `meta.totalPages` is the rational ceiling of
`totalCount / limit`, `meta.hasNextPage` is `page < totalPages` and
`meta.hasPrevPage` is `page > 1`. -/
theorem C2_todos_pagination (db : List Todo) (p : TodoListParams)
    (q : TodoListQuery) (h : parseTodoListParams p = some q) :
    (todosGET db p).status = 200 ∧
    ∃ body, (todosGET db p).body = some body ∧
      body.data.length ≤ q.limit ∧
      body.meta.totalCount = (db.filter (todoWhere q)).length ∧
      ((body.meta.totalPages : ℤ) = ⌈(body.meta.totalCount : ℚ) / (q.limit : ℚ)⌉) ∧
      (body.meta.hasNextPage = true ↔
        ((body.meta.currentPage : ℤ) < ⌈(body.meta.totalCount : ℚ) / (q.limit : ℚ)⌉)) ∧
      (body.meta.hasPrevPage = true ↔ 1 < body.meta.currentPage) ∧
      body.meta.currentPage = q.page ∧ body.meta.limit = q.limit := by
  obtain ⟨hpg, hlim, -, -, -, -⟩ := parseTodoListParams_eq p q h
  obtain ⟨hl1, hl100, -⟩ := parseLimitParam_bounds p.limit q.limit hlim
  have hb : 0 < q.limit := hl1
  have hres : todosGET db p = ⟨200, some
      ⟨((sortByBool todoLE (db.filter (todoWhere q))).drop ((q.page - 1) * q.limit)).take q.limit,
       ⟨q.page, ((db.filter (todoWhere q)).length + q.limit - 1) / q.limit,
        (db.filter (todoWhere q)).length, q.limit,
        decide (q.page < ((db.filter (todoWhere q)).length + q.limit - 1) / q.limit),
        decide (1 < q.page)⟩⟩⟩ := by
    simp only [todosGET, h]
  rw [hres]
  refine ⟨rfl, _, rfl, List.length_take_le _ _, rfl, natCeilDiv_cast _ _ hb, ?_, ?_, rfl, rfl⟩
  · rw [decide_eq_true_iff, ← natCeilDiv_cast _ _ hb]
    exact Nat.cast_lt.symm
  · rw [decide_eq_true_iff]

/-- Witness for C2: a two-row table queried with `page=1&limit=1`. -/
theorem C2_todos_pagination_witness :
    parseTodoListParams ⟨some "1", some "1", none, none, none, none⟩ =
      some ⟨1, 1, none, none, none, none⟩ ∧
    ((todosGET [⟨"a", "buy milk", false, .LOW, 5, 5, none, none⟩,
        ⟨"b", "eggs", true, .HIGH, 3, 3, none, none⟩]
        ⟨some "1", some "1", none, none, none, none⟩).status = 200 ∧
      ∃ body, (todosGET [⟨"a", "buy milk", false, .LOW, 5, 5, none, none⟩,
          ⟨"b", "eggs", true, .HIGH, 3, 3, none, none⟩]
          ⟨some "1", some "1", none, none, none, none⟩).body = some body ∧
        body.data.length ≤ 1 ∧
        body.meta.totalCount =
          ([⟨"a", "buy milk", false, .LOW, 5, 5, none, none⟩,
            ⟨"b", "eggs", true, .HIGH, 3, 3, none, none⟩].filter
              (todoWhere ⟨1, 1, none, none, none, none⟩)).length ∧
        ((body.meta.totalPages : ℤ) = ⌈(body.meta.totalCount : ℚ) / ((1 : ℕ) : ℚ)⌉) ∧
        (body.meta.hasNextPage = true ↔
          ((body.meta.currentPage : ℤ) < ⌈(body.meta.totalCount : ℚ) / ((1 : ℕ) : ℚ)⌉)) ∧
        (body.meta.hasPrevPage = true ↔ 1 < body.meta.currentPage) ∧
        body.meta.currentPage = 1 ∧ body.meta.limit = 1) :=
  ⟨by decide,
   C2_todos_pagination
     [⟨"a", "buy milk", false, .LOW, 5, 5, none, none⟩,
      ⟨"b", "eggs", true, .HIGH, 3, 3, none, none⟩]
     ⟨some "1", some "1", none, none, none, none⟩
     ⟨1, 1, none, none, none, none⟩ (by decide)⟩

/-- C3 (amended): the todos list endpoint validates its query parameters
against the strict schema — every accepted parse has `page ≥ 1` and
`1 ≤ limit ≤ 100` with defaults 1/10, and every rejected input answers 400
with no data — whereas the items list endpoint performs no such validation
(see the counterexample). -/
theorem C3_todos_strict_validation (db : List Todo) (p : TodoListParams) :
    (∀ q, parseTodoListParams p = some q →
      1 ≤ q.page ∧ 1 ≤ q.limit ∧ q.limit ≤ 100 ∧
      (p.page = none → q.page = 1) ∧ (p.limit = none → q.limit = 10)) ∧
    (parseTodoListParams p = none → todosGET db p = ⟨400, none⟩) := by
  constructor
  · intro q hq
    obtain ⟨hpg, hlim, -, -, -, -⟩ := parseTodoListParams_eq p q hq
    obtain ⟨h1, h1d⟩ := parsePageParam_bounds _ _ hpg
    obtain ⟨h2, h3, h2d⟩ := parseLimitParam_bounds _ _ hlim
    exact ⟨h1, h2, h3, h1d, h2d⟩
  · intro h
    simp [todosGET, h]

/-- Witness for C3 (amended): `limit=0`, `limit=10000` and a non-integer
`page` are all rejected 400 by the todos endpoint without touching the
table. -/
theorem C3_todos_strict_validation_witness :
    todosGET [] ⟨none, some "0", none, none, none, none⟩ = ⟨400, none⟩ ∧
    todosGET [] ⟨none, some "10000", none, none, none, none⟩ = ⟨400, none⟩ ∧
    todosGET [] ⟨some "1.5", none, none, none, none, none⟩ = ⟨400, none⟩ :=
  ⟨(C3_todos_strict_validation [] ⟨none, some "0", none, none, none, none⟩).2 (by decide),
   (C3_todos_strict_validation [] ⟨none, some "10000", none, none, none, none⟩).2 (by decide),
   (C3_todos_strict_validation [] ⟨some "1.5", none, none, none, none, none⟩).2 (by decide)⟩

/-- Counterexample to C3 as stated: the items list endpoint accepts
`limit=0` (and `limit=10000`), executes the query and answers 200 — it never
rejects pagination input with a 400. -/
theorem C3_items_accept_invalid_counterexample :
    (itemsGET ⟨none, some "0", none, none, none, none⟩
      [⟨1, "김포", "드라이버 박스", 2, "1개", .DIRECT, none, 0, 0, .UNCONFIRMED⟩]).status = 200 ∧
    (itemsGET ⟨none, some "10000", none, none, none, none⟩
      [⟨1, "김포", "드라이버 박스", 2, "1개", .DIRECT, none, 0, 0, .UNCONFIRMED⟩]).status = 200 ∧
    ¬ (itemsGET ⟨none, some "0", none, none, none, none⟩
      [⟨1, "김포", "드라이버 박스", 2, "1개", .DIRECT, none, 0, 0, .UNCONFIRMED⟩]).status = 400 := by
  decide

/-- C4 (amended): an event mutation by an authenticated non-owner answers
403 with the table unchanged for every JSON-parseable PUT/PATCH payload and
for DELETE; a missing event answers 404 (again for parseable PUT bodies and
for DELETE); a PUT whose body fails JSON parsing answers 400, also with the
table unchanged. -/
theorem C4_event_ownership (parseDate : String → Option Int) (now : Int)
    (uid : Int) (eventId : String) (b : EventBody) (db : List CalendarEvent) :
    (∀ ev, db.find? (fun e => decide (e.id = eventId)) = some ev → ¬ ev.userId = uid →
      eventsPUT parseDate now (some uid) eventId (some b) db = ⟨403, db⟩ ∧
      eventsPATCH parseDate now (some uid) eventId (some b) db = ⟨403, db⟩ ∧
      eventsDELETE (some uid) eventId db = ⟨403, db⟩) ∧
    (db.find? (fun e => decide (e.id = eventId)) = none →
      eventsPUT parseDate now (some uid) eventId (some b) db = ⟨404, db⟩ ∧
      eventsPATCH parseDate now (some uid) eventId (some b) db = ⟨404, db⟩ ∧
      eventsDELETE (some uid) eventId db = ⟨404, db⟩) ∧
    eventsPUT parseDate now (some uid) eventId none db = ⟨400, db⟩ := by
  refine ⟨?_, ?_, by simp [eventsPUT]⟩
  · intro ev hf hne
    refine ⟨?_, ?_, ?_⟩ <;> simp [eventsPUT, eventsPATCH, eventsDELETE, hf, hne]
  · intro hf
    refine ⟨?_, ?_, ?_⟩ <;> simp [eventsPUT, eventsPATCH, eventsDELETE, hf]

/-- Witness for C4 (amended): user 2 cannot touch user 1's event, whatever
the payload (here a field-invalid one: an empty title), and a missing id
gives 404. -/
theorem C4_event_ownership_witness :
    eventsPUT (fun _ => none) 0 (some 2) "e1"
      (some ⟨some (.str ""), none, none, none, none, none⟩)
      [⟨"e1", "meeting", none, 10, none, true, none, 1, 0, 0⟩] =
      ⟨403, [⟨"e1", "meeting", none, 10, none, true, none, 1, 0, 0⟩]⟩ ∧
    eventsDELETE (some 2) "e1" [⟨"e1", "meeting", none, 10, none, true, none, 1, 0, 0⟩] =
      ⟨403, [⟨"e1", "meeting", none, 10, none, true, none, 1, 0, 0⟩]⟩ ∧
    eventsDELETE (some 2) "zz" [⟨"e1", "meeting", none, 10, none, true, none, 1, 0, 0⟩] =
      ⟨404, [⟨"e1", "meeting", none, 10, none, true, none, 1, 0, 0⟩]⟩ := by
  have h := C4_event_ownership (fun _ => none) 0 2 "e1"
    ⟨some (.str ""), none, none, none, none, none⟩
    [⟨"e1", "meeting", none, 10, none, true, none, 1, 0, 0⟩]
  have hmiss := C4_event_ownership (fun _ => none) 0 2 "zz"
    ⟨some (.str ""), none, none, none, none, none⟩
    [⟨"e1", "meeting", none, 10, none, true, none, 1, 0, 0⟩]
  have hown := h.1 ⟨"e1", "meeting", none, 10, none, true, none, 1, 0, 0⟩ (by rfl) (by decide)
  exact ⟨hown.1, hown.2.2, (hmiss.2.1 (by rfl)).2.2⟩

/-- Counterexample to C4 as stated: the event exists and is owned by user 1,
the caller is authenticated as user 2, yet the PUT answers 400 (not 403),
because the handler parses the JSON body before the ownership check and this
body is unparseable. -/
theorem C4_event_ownership_counterexample :
    ([⟨"e1", "meeting", none, 10, none, true, none, 1, 0, 0⟩] : List CalendarEvent).find?
      (fun e => decide (e.id = "e1")) =
      some ⟨"e1", "meeting", none, 10, none, true, none, 1, 0, 0⟩ ∧
    (eventsPUT (fun _ => none) 0 (some 2) "e1" none
      [⟨"e1", "meeting", none, 10, none, true, none, 1, 0, 0⟩]).status = 400 ∧
    ¬ (eventsPUT (fun _ => none) 0 (some 2) "e1" none
      [⟨"e1", "meeting", none, 10, none, true, none, 1, 0, 0⟩]).status = 403 := by
  decide

set_option maxRecDepth 100000 in
/-- C5 (code bug): `todoUpdateSchema` bounds the text only from below
(`min(1)` after trim) — a 201-character text passes validation, the update
handler answers 200 and persists it, violating the specified 400 rejection
and the `length ≤ 200` invariant (which the todo form's `maxLength={200}`
enforces client-side only); a 200-character text is accepted as the claim
says. -/
theorem C5_todo_text_limit_missing :
    (String.mk (List.replicate 201 'a')).length = 201 ∧
    parseTodoUpdate (fun _ => false)
      ⟨some (.str (String.mk (List.replicate 201 'a'))), none, none, none, none⟩ =
      some ⟨some (String.mk (List.replicate 201 'a')), none, none, none, none⟩ ∧
    (todosIdPUT (fun _ => false) (fun _ => 0) 99 []
      [⟨"t1", "old", false, .MEDIUM, 0, 0, none, none⟩] "t1"
      (some ⟨some (.str (String.mk (List.replicate 201 'a'))), none, none, none, none⟩)).status
      = 200 ∧
    ((todosIdPUT (fun _ => false) (fun _ => 0) 99 []
      [⟨"t1", "old", false, .MEDIUM, 0, 0, none, none⟩] "t1"
      (some ⟨some (.str (String.mk (List.replicate 201 'a'))), none, none, none,
        none⟩)).db.map (fun t => t.text.length)) = [201] ∧
    (String.mk (List.replicate 200 'a')).length = 200 ∧
    (parseTodoUpdate (fun _ => false)
      ⟨some (.str (String.mk (List.replicate 200 'a'))), none, none, none, none⟩).isSome
      = true := by
  decide

/-- C9: a successful item update (200) maps only the targeted row through
`applyItemPatch`, and the patch changes exactly the supplied fields — each
absent field keeps its previous value, each supplied field takes the payload
value (`notes` of `''` is stored as `null`), `id` and `createdAt` are
untouched and `updatedAt` is always refreshed to the request time. -/
theorem C9_item_partial_update (now : Int) (idStr : String) (n : Int)
    (d : ItemUpdateBody) (patch : ItemPatch) (db : List Item) (old : Item)
    (hn : jsParseInt idStr = some n)
    (hb : buildItemPatch d = .ok patch)
    (hc : ¬ patchKeyCount patch = 0)
    (hf : db.find? (fun it => decide (it.id = n)) = some old) :
    itemsIdPUT now true idStr (some d) db =
      ⟨200, db.map (fun it => if it.id = n then applyItemPatch now patch it else it)⟩ ∧
    (∀ it, (applyItemPatch now patch it).updatedAt = now) ∧
    (∀ it, (applyItemPatch now patch it).id = it.id) ∧
    (∀ it, (applyItemPatch now patch it).createdAt = it.createdAt) ∧
    (d.storeName = none → ∀ it, (applyItemPatch now patch it).storeName = it.storeName) ∧
    (∀ s, d.storeName = some s → ∀ it, (applyItemPatch now patch it).storeName = s) ∧
    (d.itemName = none → ∀ it, (applyItemPatch now patch it).itemName = it.itemName) ∧
    (∀ s, d.itemName = some s → ∀ it, (applyItemPatch now patch it).itemName = s) ∧
    (d.quantity = none → ∀ it, (applyItemPatch now patch it).quantity = it.quantity) ∧
    (∀ qv, d.quantity = some (some qv) → ∀ it, (applyItemPatch now patch it).quantity = qv) ∧
    (d.specification = none → ∀ it, (applyItemPatch now patch it).specification = it.specification) ∧
    (∀ s, d.specification = some s → ∀ it, (applyItemPatch now patch it).specification = s) ∧
    (d.deliveryMethod = none → ∀ it, (applyItemPatch now patch it).deliveryMethod = it.deliveryMethod) ∧
    (∀ m, d.deliveryMethod = some m → ∀ it, (applyItemPatch now patch it).deliveryMethod = m) ∧
    (d.progressStatus = none → ∀ it, (applyItemPatch now patch it).progressStatus = it.progressStatus) ∧
    (∀ ps, d.progressStatus = some ps → ∀ it, (applyItemPatch now patch it).progressStatus = ps) ∧
    (d.notes = none → ∀ it, (applyItemPatch now patch it).notes = it.notes) ∧
    (d.notes = some "" → ∀ it, (applyItemPatch now patch it).notes = none) ∧
    (∀ s, d.notes = some s → ¬ s = "" → ∀ it, (applyItemPatch now patch it).notes = some s) := by
  have hpatch : patch = ⟨d.storeName, d.itemName,
      (match d.quantity with | some (some q) => some q | _ => none),
      d.specification, d.deliveryMethod, d.progressStatus,
      d.notes.map (fun s => if s = "" then none else some s)⟩ := by
    cases hq : d.quantity with
    | none =>
      simp only [buildItemPatch, hq, Except.ok.injEq] at hb
      simp [← hb]
    | some qv =>
      cases qv with
      | none => simp [buildItemPatch, hq] at hb
      | some q =>
        by_cases hneg : q < 0
        · simp [buildItemPatch, hq, hneg] at hb
        · simp only [buildItemPatch, hq, hneg, if_neg, Except.ok.injEq, ite_false] at hb
          simp [← hb]
  subst hpatch
  refine ⟨by simp [itemsIdPUT, hn, hb, hc, hf], ?_, ?_, ?_, ?_, ?_, ?_, ?_, ?_, ?_, ?_, ?_,
    ?_, ?_, ?_, ?_, ?_, ?_, ?_⟩ <;>
    · intros
      simp_all [applyItemPatch]

/-- Witness for C9: updating store name, quantity, status and blank notes on
a one-row table changes exactly those columns, clears the notes, keeps
`id`/`createdAt` and refreshes `updatedAt`. -/
theorem C9_item_partial_update_witness :
    itemsIdPUT 99 true "1"
      (some ⟨some "C", none, some (some 7), none, none, some .COMPLETED, some ""⟩)
      [⟨1, "A", "B", 5, "sp", .DIRECT, some "n", 3, 3, .UNCONFIRMED⟩] =
      ⟨200, [⟨1, "C", "B", 7, "sp", .DIRECT, none, 3, 99, .COMPLETED⟩]⟩ := by
  rw [(C9_item_partial_update 99 "1" 1
    ⟨some "C", none, some (some 7), none, none, some .COMPLETED, some ""⟩
    ⟨some "C", none, some 7, none, none, some .COMPLETED, some none⟩
    [⟨1, "A", "B", 5, "sp", .DIRECT, some "n", 3, 3, .UNCONFIRMED⟩]
    ⟨1, "A", "B", 5, "sp", .DIRECT, some "n", 3, 3, .UNCONFIRMED⟩
    (by decide) (by rfl) (by decide) (by rfl)).1]
  decide

/-- Inserting into a list is a permutation of consing. -/
theorem insertSorted_perm (le : α → α → Bool) (x : α) (l : List α) :
    List.Perm (insertSorted le x l) (x :: l) := by
  induction l with
  | nil => exact List.Perm.refl _
  | cons y ys ih =>
    simp only [insertSorted]
    split
    · exact List.Perm.refl _
    · exact (ih.cons y).trans (List.Perm.swap x y ys)

/-- The sort `sortByBool` permutes its input. -/
theorem sortByBool_perm (le : α → α → Bool) (l : List α) :
    List.Perm (sortByBool le l) l := by
  induction l with
  | nil => exact List.Perm.refl _
  | cons x xs ih => exact (insertSorted_perm le x (sortByBool le xs)).trans (ih.cons x)

/-- Every item is in exactly one of the three progress states, so the table
size is the sum of the three per-status counts. -/
theorem length_count_three (db : List Item) :
    db.length =
      (db.filter (fun it => decide (it.progressStatus = ProgressStatus.UNCONFIRMED))).length +
      (db.filter (fun it => decide (it.progressStatus = ProgressStatus.IN_PROGRESS))).length +
      (db.filter (fun it => decide (it.progressStatus = ProgressStatus.COMPLETED))).length := by
  induction db with
  | nil => rfl
  | cons it rest ih =>
    cases h : it.progressStatus <;> simp [List.filter_cons, h, ih] <;> omega

/-- Splitting a quantity sum along a boolean predicate. -/
theorem sum_filter_split (l : List Item) (p : Item → Bool) :
    ((l.filter p).map (fun x => x.quantity)).sum +
      ((l.filter (fun x => !(p x))).map (fun x => x.quantity)).sum =
      (l.map (fun x => x.quantity)).sum := by
  induction l with
  | nil => rfl
  | cons x xs ih =>
    by_cases h : p x = true <;> simp [List.filter_cons, h] <;> omega

/-- Summing the per-store quantity totals over a duplicate-free cover of the
store names yields the total quantity. -/
theorem sum_over_keys (keys : List String) (l : List Item)
    (hnd : keys.Nodup) (hcov : ∀ x ∈ l, x.storeName ∈ keys) :
    (keys.map (fun s =>
      ((l.filter (fun x => decide (x.storeName = s))).map (fun x => x.quantity)).sum)).sum =
      (l.map (fun x => x.quantity)).sum := by
  induction keys generalizing l with
  | nil =>
    have hl : l = [] := by
      cases l with
      | nil => rfl
      | cons x xs => exact absurd (hcov x (by simp)) (by simp)
    simp [hl]
  | cons s ks ih =>
    obtain ⟨hs, hks⟩ := List.nodup_cons.mp hnd
    have hfil : ∀ k ∈ ks,
        (l.filter (fun x => !(decide (x.storeName = s)))).filter
          (fun x => decide (x.storeName = k)) =
          l.filter (fun x => decide (x.storeName = k)) := by
      intro k hk
      rw [List.filter_filter]
      apply List.filter_congr
      intro x hx
      have hks2 : ¬ k = s := fun he => hs (he ▸ hk)
      by_cases hxk : x.storeName = k
      · simp [hxk, hks2]
      · simp [hxk]
    have hcov' : ∀ x ∈ l.filter (fun x => !(decide (x.storeName = s))), x.storeName ∈ ks := by
      intro x hx
      obtain ⟨hxl, hxs⟩ := List.mem_filter.mp hx
      simp only [Bool.not_eq_true', decide_eq_false_iff_not] at hxs
      rcases List.mem_cons.mp (hcov x hxl) with h1 | h1
      · exact absurd h1 hxs
      · exact h1
    have hrest := ih (l.filter (fun x => !(decide (x.storeName = s)))) hks hcov'
    have hmapeq : ks.map (fun k =>
        (((l.filter (fun x => !(decide (x.storeName = s)))).filter
          (fun x => decide (x.storeName = k))).map (fun x => x.quantity)).sum) =
        ks.map (fun k =>
          ((l.filter (fun x => decide (x.storeName = k))).map (fun x => x.quantity)).sum) := by
      apply List.map_congr_left
      intro k hk
      rw [hfil k hk]
    rw [List.map_cons, List.sum_cons, ← hmapeq, hrest]
    exact sum_filter_split l (fun x => decide (x.storeName = s))

/-- C10: dashboard totals are mutually consistent on every table state:
`totalItems` is the sum of the three per-status totals, the per-store
quantity totals sum to the table's total quantity, and the handler leaves
the table unchanged (no writes). -/
theorem C10_dashboard_totals (db : List Item) :
    (dashboardGET true db).db = db ∧
    ∃ body, (dashboardGET true db).body = some body ∧
      body.overallStats.totalItems =
        body.overallStats.totalUnconfirmed + body.overallStats.totalInProgress +
          body.overallStats.totalCompleted ∧
      (body.storeData.map (fun sd => sd.totalQuantity)).sum =
        (db.map (fun it => it.quantity)).sum := by
  refine ⟨rfl, _, rfl, length_count_three db, ?_⟩
  have hperm := sortByBool_perm (fun a b => decide (b.totalQuantity ≤ a.totalQuantity))
    ((storeKeys db).map (fun s => (⟨s,
      ((db.filter (fun it => decide (it.storeName = s))).map (fun it => it.quantity)).sum⟩ :
        StoreQty)))
  have h1 := (hperm.map (fun sd : StoreQty => sd.totalQuantity)).sum_eq
  have h2 : (((storeKeys db).map (fun s => (⟨s,
      ((db.filter (fun it => decide (it.storeName = s))).map (fun it => it.quantity)).sum⟩ :
        StoreQty))).map (fun sd : StoreQty => sd.totalQuantity)).sum =
      ((storeKeys db).map (fun s =>
        ((db.filter (fun it => decide (it.storeName = s))).map (fun it => it.quantity)).sum)).sum := by
    rw [List.map_map]
    rfl
  exact (h1.trans h2).trans (sum_over_keys (storeKeys db) db (List.nodup_dedup _)
    (fun x hx => List.mem_dedup.mpr (List.mem_map_of_mem _ hx)))

end InventoryErp
